import Mathlib

/-!
Shallow embedding of `src/GeometryDataBase/GeometryDataBase.py`
(spatial / spatiotemporal index and query engine of the RiverObs repository).

Modelling conventions:
* Coordinates and time values are exact rationals (`ℚ`).
* A pysal shape record is modelled as the finite set of planar points that
  constitute its exact shape (a shapely multipoint-like object); its
  `bounding_box` attributes (`left`, `lower`, `right`, `upper`) are computed
  from those points, as a well-formed shapefile guarantees.
* `shapely.Polygon` built from the four corners of a box `(xmin,ymin,xmax,ymax)`
  and its `intersects` test against a shape are modelled by membership of some
  point of the shape in the closed rectangle.
* The rtree `index.Index` is modelled by its list of `(box, payload)` entries;
  `idx.intersection(q, objects='raw')` returns, in scan order, the raw payload
  of every entry whose stored box overlaps the (closed) query box — exactly
  rtree's contract on boxes.
* pysal indexing: `shp[i]` yields the `i`-th shape record; for a dbf table,
  `dbf[i]` yields the one-row slice `[row_i]` (pysal `DataTable.__getitem__`),
  which is what makes `shape_bbox_dbf_as_tuple`'s `dbf[0][tindex]` pick the
  `tindex`-th field of row `i`.
* Python exceptions (`list.index` on a missing element, a query that would
  raise) become `Option`: `none` means the call raised and nothing was written.
* The filesystem is a list of file names; `os.path.exists` is membership.
-/

namespace GeometryDataBase

/-- A planar point with exact rational coordinates. -/
structure Pt where
  x : ℚ
  y : ℚ
deriving DecidableEq, Repr

/-- A 2D bounding box `(xmin, ymin, xmax, ymax)`. -/
structure Box2 where
  xmin : ℚ
  ymin : ℚ
  xmax : ℚ
  ymax : ℚ
deriving DecidableEq, Repr

/-- A 3D space-time bounding box `(xmin, ymin, tmin, xmax, ymax, tmax)`. -/
structure Box3 where
  xmin : ℚ
  ymin : ℚ
  tmin : ℚ
  xmax : ℚ
  ymax : ℚ
  tmax : ℚ
deriving DecidableEq, Repr

/-- A pysal shape record, modelled as the finite set of planar points of its
exact shape. -/
structure Shape where
  points : List Pt
deriving DecidableEq, Repr

/-- Source `shape.bounding_box.left`: least x-coordinate of the shape. -/
def Shape.left (s : Shape) : ℚ :=
  match s.points with
  | [] => 0
  | p :: ps => ps.foldl (fun m q => min m q.x) p.x

/-- Source `shape.bounding_box.right`: greatest x-coordinate of the shape. -/
def Shape.right (s : Shape) : ℚ :=
  match s.points with
  | [] => 0
  | p :: ps => ps.foldl (fun m q => max m q.x) p.x

/-- Source `shape.bounding_box.lower`: least y-coordinate of the shape. -/
def Shape.lower (s : Shape) : ℚ :=
  match s.points with
  | [] => 0
  | p :: ps => ps.foldl (fun m q => min m q.y) p.y

/-- Source `shape.bounding_box.upper`: greatest y-coordinate of the shape. -/
def Shape.upper (s : Shape) : ℚ :=
  match s.points with
  | [] => 0
  | p :: ps => ps.foldl (fun m q => max m q.y) p.y

/-- Membership of a point in the closed rectangle of a `Box2`. -/
def inRect (p : Pt) (b : Box2) : Bool :=
  decide (b.xmin ≤ p.x) && decide (p.x ≤ b.xmax) &&
  decide (b.ymin ≤ p.y) && decide (p.y ≤ b.ymax)

/-- Source `shapely_bbox.intersects(asShape(shape))` where `shapely_bbox` is the
polygon built from the four corners of `b`: some point of the shape lies in the
closed rectangle. -/
def asShapeIntersects (s : Shape) (b : Box2) : Bool :=
  s.points.any (fun p => inRect p b)

/-- Closed-interval overlap of two 2D boxes (rtree's intersection test). -/
def boxOverlap2 (a b : Box2) : Bool :=
  decide (a.xmin ≤ b.xmax) && decide (b.xmin ≤ a.xmax) &&
  decide (a.ymin ≤ b.ymax) && decide (b.ymin ≤ a.ymax)

/-- Closed-interval overlap of two 3D boxes (rtree's intersection test). -/
def boxOverlap3 (a b : Box3) : Bool :=
  decide (a.xmin ≤ b.xmax) && decide (b.xmin ≤ a.xmax) &&
  decide (a.ymin ≤ b.ymax) && decide (b.ymin ≤ a.ymax) &&
  decide (a.tmin ≤ b.tmax) && decide (b.tmin ≤ a.tmax)

/-- Raw payload of an rtree entry: either the record's sequential index
(`store_obj=False`) or the full shape object (`store_obj=True`). -/
inductive Payload where
  | idx (i : Nat)
  | geom (s : Shape)
deriving DecidableEq, Repr

/-- A dbf attribute record: the list of its field values. -/
abbrev Record := List ℚ

/-- pysal `dbf[i]` on a `DataTable`: the one-row slice `[row_i]`. -/
def dbfGetItem (dbf : List Record) (i : Nat) : List Record :=
  (dbf.drop i).take 1

/-- Source `shape_bbox_as_tuple(shape)`: the planar bounding box
`(left, lower, right, upper)`. -/
def shape_bbox_as_tuple (shape : Shape) : Box2 :=
  ⟨shape.left, shape.lower, shape.right, shape.upper⟩

/-- Source `shape_bbox_dbf_as_tuple(shape, dbf, dt, tindex)`: `t = dbf[0][tindex]`,
`tmin = t - dt/2`, `tmax = t + dt/2`, spatial part from the shape's
`bounding_box`. The `dbf` argument is the one-row slice passed by the
generator. -/
def shape_bbox_dbf_as_tuple (shape : Shape) (dbf : List Record) (dt : ℚ)
    (tindex : Nat) : Box3 :=
  let t := (dbf.headD []).getD tindex 0
  let tmin := t - dt / 2
  let tmax := t + dt / 2
  ⟨shape.left, shape.lower, tmin, shape.right, shape.upper, tmax⟩

/-- Source `bbox_generator_2D(shape, store_obj)`: yields `(i, bbox_i, payload_i)` for
each record, payload being the shape itself or its sequential index. -/
def bbox_generator_2D (shape : List Shape) (store_obj : Bool) :
    List (Nat × Box2 × Payload) :=
  if store_obj then
    shape.enum.map (fun p => (p.1, shape_bbox_as_tuple p.2, Payload.geom p.2))
  else
    shape.enum.map (fun p => (p.1, shape_bbox_as_tuple p.2, Payload.idx p.1))

/-- Source `bbox_generator_3D(shape, dbf, dt, tindex, store_obj)`: yields
`(i, spacetime_bbox_i, payload_i)`; passes the slice `dbf[i]` down to
`shape_bbox_dbf_as_tuple`. -/
def bbox_generator_3D (shape : List Shape) (dbf : List Record) (dt : ℚ)
    (tindex : Nat) (store_obj : Bool) : List (Nat × Box3 × Payload) :=
  if store_obj then
    shape.enum.map (fun p =>
      (p.1, shape_bbox_dbf_as_tuple p.2 (dbfGetItem dbf p.1) dt tindex,
       Payload.geom p.2))
  else
    shape.enum.map (fun p =>
      (p.1, shape_bbox_dbf_as_tuple p.2 (dbfGetItem dbf p.1) dt tindex,
       Payload.idx p.1))

/-- Source `idx.intersection(q, objects='raw')` on a 2D index: raw payloads of the
entries whose stored box overlaps the query box, in scan order. -/
def rtreeIntersection2 (entries : List (Box2 × Payload)) (q : Box2) :
    List Payload :=
  (entries.filter (fun e => boxOverlap2 e.1 q)).map Prod.snd

/-- Source `idx.intersection(q, objects='raw')` on a 3D index. -/
def rtreeIntersection3 (entries : List (Box3 × Payload)) (q : Box3) :
    List Payload :=
  (entries.filter (fun e => boxOverlap3 e.1 q)).map Prod.snd

/-- pysal `self.shape[id]`: a `Payload.idx i` payload indexes the shapefile;
indexing with a shape object raises (modelled as `none`). -/
def pysalShapeGet (shapes : List Shape) : Payload → Option Shape
  | .idx i => shapes.get? i
  | .geom _ => none

/-- The exact-refinement predicate shared by all query methods: fetch the
candidate's true geometry and test it against the rectangle `r`. -/
def refineSpatial (shapes : List Shape) (r : Box2) (id : Payload) : Bool :=
  (pysalShapeGet shapes id).elim false (fun s => asShapeIntersects s r)

/-- In-memory state of `GeometryDataBase2D` once constructed: the open
shapefile and the rtree entries. -/
structure GeometryDataBase2D where
  shape : List Shape
  idx : List (Box2 × Payload)

/-- Source `GeometryDataBase2D.intersects_xy_bbox(xy_bbox)`: candidates from the
index scan, kept when the shapely rectangle intersects the true shape. -/
def GeometryDataBase2D.intersects_xy_bbox (db : GeometryDataBase2D)
    (xy_bbox : Box2) : List Payload :=
  (rtreeIntersection2 db.idx xy_bbox).filter (refineSpatial db.shape xy_bbox)

/-- Source `GeometryDataBase2D.get_reach_intersect_xy_bbox(xy_bbox)`: same filter,
returning the shapely objects themselves. -/
def GeometryDataBase2D.get_reach_intersect_xy_bbox (db : GeometryDataBase2D)
    (xy_bbox : Box2) : List Shape :=
  ((rtreeIntersection2 db.idx xy_bbox).filter
    (refineSpatial db.shape xy_bbox)).filterMap (pysalShapeGet db.shape)

/-- Source `point_to_box`: the epsilon square around `(x, y)`. -/
def point_to_box (x y eps : ℚ) : Box2 :=
  ⟨x - eps, y - eps, x + eps, y + eps⟩

/-- Source `GeometryDataBase2D.contains_point(x, y, eps)` (default `eps = 1e-6`):
delegates to `intersects_xy_bbox` on the epsilon square. -/
def GeometryDataBase2D.contains_point (db : GeometryDataBase2D)
    (x y eps : ℚ) : List Payload :=
  db.intersects_xy_bbox (point_to_box x y eps)

/-- The spatial projection `(xmin, ymin, xmax, ymax)` of a 3D box; this is the
rectangle `Polygon([(b[0],b[1]),(b[0],b[4]),(b[3],b[4]),(b[3],b[1])])` that
`intersects_xy_time_bbox` builds from a 6-tuple. -/
def spatialOfBox3 (b : Box3) : Box2 :=
  ⟨b.xmin, b.ymin, b.xmax, b.ymax⟩

/-- Source `widen_to_alltime`: the 3D query box
`(xy[0], xy[1], -large_time, xy[2], xy[3], large_time)`. -/
def widen_to_alltime (xy : Box2) (large_time : ℚ) : Box3 :=
  ⟨xy.xmin, xy.ymin, -large_time, xy.xmax, xy.ymax, large_time⟩

/-- In-memory state of `ReachDataBase3D` once constructed. -/
structure ReachDataBase3D where
  shape : List Shape
  dbf : List Record
  tindex : Nat
  idx : List (Box3 × Payload)

/-- Source `ReachDataBase3D.intersects_xy_time_bbox(xyt_bbox)`: 3D index scan, exact
refinement against the rectangle built from the spatial components only
(indices 0, 1, 3, 4 of the 6-tuple). -/
def ReachDataBase3D.intersects_xy_time_bbox (db : ReachDataBase3D)
    (xyt_bbox : Box3) : List Payload :=
  (rtreeIntersection3 db.idx xyt_bbox).filter
    (refineSpatial db.shape (spatialOfBox3 xyt_bbox))

/-- Source `ReachDataBase3D.intersects_xy_bbox(xy_bbox, large_time)` (default
`large_time = 1e16`): widen the 2D box to all time, scan the 3D index, refine
against the rectangle built from `xy_bbox`. -/
def ReachDataBase3D.intersects_xy_bbox (db : ReachDataBase3D)
    (xy_bbox : Box2) (large_time : ℚ) : List Payload :=
  (rtreeIntersection3 db.idx (widen_to_alltime xy_bbox large_time)).filter
    (refineSpatial db.shape xy_bbox)

/-- Source `ReachDataBase3D.contains_point_time(x, y, time, eps)` (default
`eps = 1e-6`): delegates to `intersects_xy_time_bbox` on the epsilon cube. -/
def ReachDataBase3D.contains_point_time (db : ReachDataBase3D)
    (x y time eps : ℚ) : List Payload :=
  db.intersects_xy_time_bbox
    ⟨x - eps, y - eps, time - eps, x + eps, y + eps, time + eps⟩

/-- Source `ReachDataBase3D.contains_point(x, y, eps)`: delegates to the widened-time
`intersects_xy_bbox` on the epsilon square (default `large_time = 1e16`). -/
def ReachDataBase3D.contains_point (db : ReachDataBase3D)
    (x y eps large_time : ℚ) : List Payload :=
  db.intersects_xy_bbox (point_to_box x y eps) large_time

/-- Source `write_shape_rtree_2D(shape_file_root, store_obj)`: the `(box, payload)`
entries the builder streams into the fresh rtree index (persisted as
`shape_file_root.idx` / `shape_file_root.dat`). -/
def write_shape_rtree_2D (shapes : List Shape) (store_obj : Bool) :
    List (Box2 × Payload) :=
  (bbox_generator_2D shapes store_obj).map (fun e => (e.2.1, e.2.2))

/-- Python `header.index(time_kwd)`: position of the first occurrence, raising
(`none`) when the field is absent. -/
def headerIndex : List String → String → Option Nat
  | [], _ => none
  | f :: fs, kwd => if f = kwd then some 0 else (headerIndex fs kwd).map (· + 1)

/-- Source `write_shape_rtree_3D(shape_file_root, dt, time_kwd, store_obj)`:
`tindex = dbf.header.index(time_kwd)` runs before `index.Index` is created, so
a missing time field raises before any entry is generated or any file is
written (`none`); otherwise the streamed entries are persisted. -/
def write_shape_rtree_3D (shapes : List Shape) (header : List String)
    (dbf : List Record) (dt : ℚ) (time_kwd : String) (store_obj : Bool) :
    Option (List (Box3 × Payload)) :=
  match headerIndex header time_kwd with
  | none => none
  | some tindex =>
      some ((bbox_generator_3D shapes dbf dt tindex store_obj).map
        (fun e => (e.2.1, e.2.2)))

/-- The existence check in `GeometryDataBase2D.__init__` and
`ReachDataBase3D.__init__`, exactly as written in the source:
`exists(shape_file_root+'idx') and exists(shape_file_root+'dat')`
(note: the source concatenates `idx`/`dat` with no dot). -/
def rtree_files_check (fs : List String) (shape_file_root : String) : Bool :=
  fs.contains (shape_file_root ++ "idx") &&
  fs.contains (shape_file_root ++ "dat")

/-- The file names rtree actually persists for a given root
(`shape_file_root.idx` and `shape_file_root.dat`). -/
def rtree_written_files (root : String) : List String :=
  [root ++ ".idx", root ++ ".dat"]

/-- Outcome of `GeometryDataBase2D.__init__`: whether
`write_shape_rtree_2D` ran, and the entries the loaded index holds. -/
structure InitResult2 where
  rebuilt : Bool
  idx : List (Box2 × Payload)
deriving DecidableEq, Repr

/-- Source `GeometryDataBase2D.__init__(shape_file_root, store_obj)`: if the
existence check fails, build (and persist) a fresh index from the shapefile
with the given payload mode; otherwise load the persisted entries unchanged.
`fs` is the set of file names present, `persisted` the content of
`root.idx`/`root.dat` when present. -/
def GeometryDataBase2D.init (fs : List String)
    (persisted : List (Box2 × Payload)) (shapes : List Shape)
    (shape_file_root : String) (store_obj : Bool) : InitResult2 :=
  if !(rtree_files_check fs shape_file_root) then
    { rebuilt := true, idx := write_shape_rtree_2D shapes store_obj }
  else
    { rebuilt := false, idx := persisted }

/-! ### Helper lemmas about the computed bounding box -/

theorem foldl_min_le_init (f : Pt → ℚ) :
    ∀ (ps : List Pt) (a : ℚ), ps.foldl (fun m q => min m (f q)) a ≤ a := by
  intro ps
  induction ps with
  | nil => intro a; simp
  | cons p ps ih =>
    intro a
    exact le_trans (ih (min a (f p))) (min_le_left _ _)

theorem foldl_min_le_mem (f : Pt → ℚ) :
    ∀ (ps : List Pt) (a : ℚ) (q : Pt), q ∈ ps →
      ps.foldl (fun m r => min m (f r)) a ≤ f q := by
  intro ps
  induction ps with
  | nil => intro a q hq; cases hq
  | cons p ps ih =>
    intro a q hq
    rcases List.mem_cons.mp hq with h | h
    · subst h
      exact le_trans (foldl_min_le_init f ps _) (min_le_right _ _)
    · exact ih _ q h

theorem init_le_foldl_max (f : Pt → ℚ) :
    ∀ (ps : List Pt) (a : ℚ), a ≤ ps.foldl (fun m q => max m (f q)) a := by
  intro ps
  induction ps with
  | nil => intro a; simp
  | cons p ps ih =>
    intro a
    exact le_trans (le_max_left _ _) (ih (max a (f p)))

theorem mem_le_foldl_max (f : Pt → ℚ) :
    ∀ (ps : List Pt) (a : ℚ) (q : Pt), q ∈ ps →
      f q ≤ ps.foldl (fun m r => max m (f r)) a := by
  intro ps
  induction ps with
  | nil => intro a q hq; cases hq
  | cons p ps ih =>
    intro a q hq
    rcases List.mem_cons.mp hq with h | h
    · subst h
      exact le_trans (le_max_right _ _) (init_le_foldl_max f ps _)
    · exact ih _ q h

theorem Shape.left_le (s : Shape) (p : Pt) (hp : p ∈ s.points) :
    s.left ≤ p.x := by
  unfold Shape.left
  match hps : s.points with
  | [] => rw [hps] at hp; cases hp
  | q :: ps =>
    rw [hps] at hp
    rcases List.mem_cons.mp hp with h | h
    · subst h; exact foldl_min_le_init Pt.x ps _
    · exact foldl_min_le_mem Pt.x ps _ p h

theorem Shape.le_right (s : Shape) (p : Pt) (hp : p ∈ s.points) :
    p.x ≤ s.right := by
  unfold Shape.right
  match hps : s.points with
  | [] => rw [hps] at hp; cases hp
  | q :: ps =>
    rw [hps] at hp
    rcases List.mem_cons.mp hp with h | h
    · subst h; exact init_le_foldl_max Pt.x ps _
    · exact mem_le_foldl_max Pt.x ps _ p h

theorem Shape.lower_le (s : Shape) (p : Pt) (hp : p ∈ s.points) :
    s.lower ≤ p.y := by
  unfold Shape.lower
  match hps : s.points with
  | [] => rw [hps] at hp; cases hp
  | q :: ps =>
    rw [hps] at hp
    rcases List.mem_cons.mp hp with h | h
    · subst h; exact foldl_min_le_init Pt.y ps _
    · exact foldl_min_le_mem Pt.y ps _ p h

theorem Shape.le_upper (s : Shape) (p : Pt) (hp : p ∈ s.points) :
    p.y ≤ s.upper := by
  unfold Shape.upper
  match hps : s.points with
  | [] => rw [hps] at hp; cases hp
  | q :: ps =>
    rw [hps] at hp
    rcases List.mem_cons.mp hp with h | h
    · subst h; exact init_le_foldl_max Pt.y ps _
    · exact mem_le_foldl_max Pt.y ps _ p h

/-- Bounding-box soundness: a shape that intersects a rectangle has a planar
bounding box overlapping it. -/
theorem bbox_overlap_of_intersects (s : Shape) (b : Box2)
    (h : asShapeIntersects s b = true) :
    boxOverlap2 (shape_bbox_as_tuple s) b = true := by
  obtain ⟨p, hp, hr⟩ := List.any_eq_true.mp h
  simp only [inRect, Bool.and_eq_true, decide_eq_true_eq] at hr
  obtain ⟨⟨⟨h1, h2⟩, h3⟩, h4⟩ := hr
  simp only [boxOverlap2, shape_bbox_as_tuple, Bool.and_eq_true,
    decide_eq_true_eq]
  refine ⟨⟨⟨?_, ?_⟩, ?_⟩, ?_⟩
  · exact le_trans (s.left_le p hp) h2
  · exact le_trans h1 (s.le_right p hp)
  · exact le_trans (s.lower_le p hp) h4
  · exact le_trans h3 (s.le_upper p hp)

/-- A successful refinement test yields the fetched shape and its exact
intersection with the rectangle. -/
theorem refineSpatial_eq_true (shapes : List Shape) (r : Box2) (id : Payload)
    (h : refineSpatial shapes r id = true) :
    ∃ s, pysalShapeGet shapes id = some s ∧ asShapeIntersects s r = true := by
  unfold refineSpatial at h
  cases hg : pysalShapeGet shapes id with
  | none => rw [hg] at h; simp [Option.elim] at h
  | some s => rw [hg] at h; exact ⟨s, rfl, h⟩

/-! ### Concrete sample data used by the witnesses -/

/-- A one-point sample shape at the origin. -/
def sampleShape : Shape := ⟨[⟨0, 0⟩]⟩

/-- A sample query box around the origin. -/
def sampleBox : Box2 := ⟨-1, -1, 1, 1⟩

/-- A sample 2D database over `sampleShape`, with the index the builder
produces for `store_obj=False`. -/
def sampleDB2 : GeometryDataBase2D :=
  ⟨[sampleShape], write_shape_rtree_2D [sampleShape] false⟩

/-! ### Claims -/

/-- C1: every id returned by `intersects_xy_bbox(B)` names a geometry whose
exact shape truly intersects the exact rectangle built from `B`'s corners, and
every geometry returned by `get_reach_intersect_xy_bbox(B)` truly intersects
that rectangle: no false positives survive the exact-refinement filter. -/
theorem exactness_after_refinement (db : GeometryDataBase2D) (B : Box2) :
    (∀ id ∈ db.intersects_xy_bbox B,
      ∃ s, pysalShapeGet db.shape id = some s ∧ asShapeIntersects s B = true) ∧
    (∀ g ∈ db.get_reach_intersect_xy_bbox B, asShapeIntersects g B = true) := by
  constructor
  · intro id hid
    have hmem := List.mem_filter.mp hid
    exact refineSpatial_eq_true _ _ _ hmem.2
  · intro g hg
    unfold GeometryDataBase2D.get_reach_intersect_xy_bbox at hg
    obtain ⟨id, hid, hget⟩ := List.mem_filterMap.mp hg
    have hmem := List.mem_filter.mp hid
    obtain ⟨s, hs, hint⟩ := refineSpatial_eq_true _ _ _ hmem.2
    rw [hs] at hget
    cases hget
    exact hint

/-- Witness for C1 at a concrete database and query box. -/
theorem exactness_after_refinement_witness :
    ∃ s, pysalShapeGet sampleDB2.shape (Payload.idx 0) = some s ∧
      asShapeIntersects s sampleBox = true :=
  (exactness_after_refinement sampleDB2 sampleBox).1 (Payload.idx 0) (by decide)

/-- C2: soundness / no false negatives. If geometry `i` is stored in the
index together with its planar bounding box, and its true shape intersects the
rectangle of the query box `B`, then its id is returned by
`intersects_xy_bbox(B)`. (The index scan of the model returns every entry
whose stored box overlaps the query box — rtree's contract — so the
approximate stage is a safe over-approximation.) -/
theorem intersects_xy_bbox_sound (shapes : List Shape)
    (entries : List (Box2 × Payload)) (B : Box2) (i : Nat)
    (h : i < shapes.length)
    (hentry : (shape_bbox_as_tuple (shapes.get ⟨i, h⟩), Payload.idx i) ∈ entries)
    (hint : asShapeIntersects (shapes.get ⟨i, h⟩) B = true) :
    Payload.idx i ∈
      (GeometryDataBase2D.mk shapes entries).intersects_xy_bbox B := by
  unfold GeometryDataBase2D.intersects_xy_bbox
  apply List.mem_filter.mpr
  constructor
  · unfold rtreeIntersection2
    apply List.mem_map.mpr
    refine ⟨(shape_bbox_as_tuple (shapes.get ⟨i, h⟩), Payload.idx i), ?_, rfl⟩
    apply List.mem_filter.mpr
    exact ⟨hentry, bbox_overlap_of_intersects _ _ hint⟩
  · show refineSpatial shapes B (Payload.idx i) = true
    unfold refineSpatial
    have hget : pysalShapeGet shapes (Payload.idx i) = some (shapes.get ⟨i, h⟩) := by
      unfold pysalShapeGet
      exact List.get?_eq_get h
    rw [hget]
    exact hint

/-- Witness for C2 at a concrete database and query box. -/
theorem intersects_xy_bbox_sound_witness :
    Payload.idx 0 ∈
      (GeometryDataBase2D.mk [sampleShape]
        [(shape_bbox_as_tuple sampleShape, Payload.idx 0)]).intersects_xy_bbox
        sampleBox :=
  intersects_xy_bbox_sound [sampleShape]
    [(shape_bbox_as_tuple sampleShape, Payload.idx 0)] sampleBox 0
    (by decide) (by simp) (by decide)

/-- Componentwise box inclusion `b1 ⊆ b2`. -/
def boxSub (b1 b2 : Box2) : Prop :=
  b2.xmin ≤ b1.xmin ∧ b1.xmax ≤ b2.xmax ∧ b2.ymin ≤ b1.ymin ∧ b1.ymax ≤ b2.ymax

theorem boxOverlap2_mono (a b1 b2 : Box2) (hsub : boxSub b1 b2)
    (h : boxOverlap2 a b1 = true) : boxOverlap2 a b2 = true := by
  simp only [boxOverlap2, Bool.and_eq_true, decide_eq_true_eq] at h ⊢
  obtain ⟨⟨⟨h1, h2⟩, h3⟩, h4⟩ := h
  obtain ⟨s1, s2, s3, s4⟩ := hsub
  exact ⟨⟨⟨le_trans h1 s2, le_trans s1 h2⟩, le_trans h3 s4⟩, le_trans s3 h4⟩

theorem inRect_mono (p : Pt) (b1 b2 : Box2) (hsub : boxSub b1 b2)
    (h : inRect p b1 = true) : inRect p b2 = true := by
  simp only [inRect, Bool.and_eq_true, decide_eq_true_eq] at h ⊢
  obtain ⟨⟨⟨h1, h2⟩, h3⟩, h4⟩ := h
  obtain ⟨s1, s2, s3, s4⟩ := hsub
  exact ⟨⟨⟨le_trans s1 h1, le_trans h2 s2⟩, le_trans s3 h3⟩, le_trans h4 s4⟩

theorem asShapeIntersects_mono (s : Shape) (b1 b2 : Box2) (hsub : boxSub b1 b2)
    (h : asShapeIntersects s b1 = true) : asShapeIntersects s b2 = true := by
  obtain ⟨p, hp, hr⟩ := List.any_eq_true.mp h
  exact List.any_eq_true.mpr ⟨p, hp, inRect_mono p b1 b2 hsub hr⟩

theorem refineSpatial_mono (shapes : List Shape) (b1 b2 : Box2) (id : Payload)
    (hsub : boxSub b1 b2) (h : refineSpatial shapes b1 id = true) :
    refineSpatial shapes b2 id = true := by
  obtain ⟨s, hs, hint⟩ := refineSpatial_eq_true shapes b1 id h
  unfold refineSpatial
  rw [hs]
  exact asShapeIntersects_mono s b1 b2 hsub hint

/-- C7: point-query monotonicity in the tolerance. For `0 < eps1 ≤ eps2`,
every id returned by `contains_point(x, y, eps1)` is also returned by
`contains_point(x, y, eps2)` — shrinking `eps` toward 0 never increases the
result set (default `eps = 1e-6`; `contains_point` delegates to the box query
on the epsilon square `(x-eps, y-eps, x+eps, y+eps)`). -/
theorem contains_point_monotone (db : GeometryDataBase2D) (x y eps1 eps2 : ℚ)
    (h0 : 0 < eps1) (h12 : eps1 ≤ eps2) (id : Payload)
    (hid : id ∈ db.contains_point x y eps1) :
    id ∈ db.contains_point x y eps2 := by
  have hsub : boxSub (point_to_box x y eps1) (point_to_box x y eps2) := by
    refine ⟨?_, ?_, ?_, ?_⟩ <;> simp [point_to_box] <;> linarith
  unfold GeometryDataBase2D.contains_point GeometryDataBase2D.intersects_xy_bbox at hid ⊢
  obtain ⟨hcand, href⟩ := List.mem_filter.mp hid
  apply List.mem_filter.mpr
  constructor
  · unfold rtreeIntersection2 at hcand ⊢
    obtain ⟨e, he, heq⟩ := List.mem_map.mp hcand
    obtain ⟨hein, hov⟩ := List.mem_filter.mp he
    apply List.mem_map.mpr
    refine ⟨e, List.mem_filter.mpr ⟨hein, ?_⟩, heq⟩
    exact boxOverlap2_mono e.1 _ _ hsub hov
  · exact refineSpatial_mono db.shape _ _ id hsub href

/-- Witness for C7: a concrete database, point and pair of tolerances. -/
theorem contains_point_monotone_witness :
    Payload.idx 0 ∈ sampleDB2.contains_point 0 0 1 :=
  contains_point_monotone sampleDB2 0 0 (1/2) 1 (by norm_num) (by norm_num)
    (Payload.idx 0)
    (by norm_num [GeometryDataBase2D.contains_point,
      GeometryDataBase2D.intersects_xy_bbox, rtreeIntersection2, point_to_box,
      refineSpatial, pysalShapeGet, asShapeIntersects, inRect, boxOverlap2,
      sampleDB2, write_shape_rtree_2D, bbox_generator_2D, shape_bbox_as_tuple,
      sampleShape, Shape.left, Shape.right, Shape.lower, Shape.upper,
      List.enum, List.enumFrom, List.filter, List.any])

/-- C6: the exact-refinement step of the 3D queries is purely spatial.
`intersects_xy_time_bbox` filters its candidates with the refinement
predicate built from the spatial projection `(xmin, ymin, xmax, ymax)` of the
query 6-tuple; consequently two 3D query boxes that differ only in their time
bounds filter any candidate list identically at the refinement step, and
`contains_point_time`'s refinement predicate does not depend on the query
time at all. -/
theorem refinement_ignores_time (db : ReachDataBase3D) (b1 b2 : Box3)
    (hx1 : b1.xmin = b2.xmin) (hy1 : b1.ymin = b2.ymin)
    (hx2 : b1.xmax = b2.xmax) (hy2 : b1.ymax = b2.ymax) :
    (db.intersects_xy_time_bbox b1 =
      (rtreeIntersection3 db.idx b1).filter
        (refineSpatial db.shape (spatialOfBox3 b1))) ∧
    (∀ cands : List Payload,
      cands.filter (refineSpatial db.shape (spatialOfBox3 b1)) =
      cands.filter (refineSpatial db.shape (spatialOfBox3 b2))) ∧
    (∀ x y t1 t2 eps,
      refineSpatial db.shape
        (spatialOfBox3 ⟨x - eps, y - eps, t1 - eps, x + eps, y + eps, t1 + eps⟩) =
      refineSpatial db.shape
        (spatialOfBox3 ⟨x - eps, y - eps, t2 - eps, x + eps, y + eps, t2 + eps⟩)) := by
  have hsp : spatialOfBox3 b1 = spatialOfBox3 b2 := by
    simp [spatialOfBox3, hx1, hy1, hx2, hy2]
  refine ⟨rfl, ?_, ?_⟩
  · intro cands
    rw [hsp]
  · intro x y t1 t2 eps
    rfl

/-- Witness for C6 at two concrete query boxes differing only in time and a
concrete candidate list. -/
theorem refinement_ignores_time_witness :
    [Payload.idx 0].filter (refineSpatial [sampleShape]
      (spatialOfBox3 ⟨0, 0, 0, 1, 1, 1⟩)) =
    [Payload.idx 0].filter (refineSpatial [sampleShape]
      (spatialOfBox3 ⟨0, 0, 5, 1, 1, 9⟩)) :=
  (refinement_ignores_time ⟨[sampleShape], [], 0, []⟩ ⟨0, 0, 0, 1, 1, 1⟩
    ⟨0, 0, 5, 1, 1, 9⟩ rfl rfl rfl rfl).2.1 [Payload.idx 0]

/-! ### Auxiliary evaluation lemmas for the 3D builder -/

theorem take_one_drop_headD {α : Type _} (d : α) :
    ∀ (l : List α) (i : Nat), ((l.drop i).take 1).headD d = l[i]?.getD d
  | [], i => by cases i <;> simp
  | a :: l, 0 => by simp
  | a :: l, i + 1 => by simpa using take_one_drop_headD d l i

theorem shape_bbox_dbf_as_tuple_eq (s : Shape) (dbf : List Record) (dt : ℚ)
    (tindex : Nat) :
    shape_bbox_dbf_as_tuple s dbf dt tindex =
      ⟨s.left, s.lower, (dbf.headD []).getD tindex 0 - dt / 2,
       s.right, s.upper, (dbf.headD []).getD tindex 0 + dt / 2⟩ := rfl

/-- C5: the space-time box stored for record `i` at build time is
`(xmin, ymin, t - dt/2, xmax, ymax, t + dt/2)` where `(xmin, ymin, xmax,
ymax)` is record `i`'s own planar bounding box and `t` is record `i`'s own
time attribute (field `tindex` of dbf row `i`, not another record's). -/
theorem spacetime_box_centered (shapes : List Shape) (dbf : List Record)
    (dt : ℚ) (tindex : Nat) (so : Bool) (i : Nat)
    (hi : i < shapes.length) (hdbf : i < dbf.length)
    (hrec : tindex < dbf[i].length) :
    (bbox_generator_3D shapes dbf dt tindex so)[i]? =
      some (i,
        ⟨shapes[i].left, shapes[i].lower, dbf[i][tindex] - dt / 2,
         shapes[i].right, shapes[i].upper, dbf[i][tindex] + dt / 2⟩,
        if so then Payload.geom shapes[i] else Payload.idx i) := by
  have hslice : (dbfGetItem dbf i).headD ([] : Record) = dbf[i] := by
    unfold dbfGetItem
    rw [take_one_drop_headD, List.getElem?_eq_getElem hdbf]
    rfl
  have ht : ((dbfGetItem dbf i).headD ([] : Record)).getD tindex 0 =
      dbf[i][tindex] := by
    rw [hslice, List.getD_eq_getElem?_getD, List.getElem?_eq_getElem hrec]
    rfl
  cases so with
  | false =>
    simp only [bbox_generator_3D, Bool.false_eq_true, if_false,
      List.getElem?_map, List.getElem?_enum, List.getElem?_eq_getElem hi,
      Option.map_some', shape_bbox_dbf_as_tuple_eq, ht]
  | true =>
    simp only [bbox_generator_3D, if_true, List.getElem?_map,
      List.getElem?_enum, List.getElem?_eq_getElem hi, Option.map_some',
      shape_bbox_dbf_as_tuple_eq, ht]

/-- Witness for C5 at a concrete record list. -/
theorem spacetime_box_centered_witness :
    (bbox_generator_3D [sampleShape] [[5, 7]] 2 1 false)[0]? =
      some (0, ⟨sampleShape.left, sampleShape.lower, 7 - 2 / 2,
        sampleShape.right, sampleShape.upper, 7 + 2 / 2⟩, Payload.idx 0) := by
  have h := spacetime_box_centered [sampleShape] [[5, 7]] 2 1 false 0
    (by decide) (by decide) (by decide)
  simpa using h

/-- C10: with `store_obj=False` the entry generators (2D and 3D) yield, for
every record, a payload equal to that record's 0-based sequential position in
the shapefile; consequently every payload returned by the index scan with
`objects='raw'` over the built 2D index is a valid 0-based index into the
shapefile source, which the refinement step's `self.shape[id]` fetch uses to
obtain the matching geometry. -/
theorem payload_is_sequential_index (shapes : List Shape) (dbf : List Record)
    (dt : ℚ) (tindex : Nat) (q : Box2) :
    (∀ e ∈ bbox_generator_2D shapes false,
      e.2.2 = Payload.idx e.1 ∧ e.1 < shapes.length) ∧
    (∀ e ∈ bbox_generator_3D shapes dbf dt tindex false,
      e.2.2 = Payload.idx e.1 ∧ e.1 < shapes.length) ∧
    (∀ p ∈ rtreeIntersection2 (write_shape_rtree_2D shapes false) q,
      ∃ i, ∃ hlt : i < shapes.length, p = Payload.idx i ∧
        pysalShapeGet shapes p = some shapes[i]) := by
  have henum : ∀ j (s : Shape), (j, s) ∈ shapes.enum → j < shapes.length := by
    intro j s hj
    rw [List.mk_mem_enum_iff_getElem?] at hj
    by_contra hlt
    rw [List.getElem?_eq_none (by omega)] at hj
    cases hj
  refine ⟨?_, ?_, ?_⟩
  · intro e he
    simp only [bbox_generator_2D, Bool.false_eq_true, if_false] at he
    obtain ⟨⟨j, s⟩, hp, rfl⟩ := List.mem_map.mp he
    exact ⟨rfl, henum j s hp⟩
  · intro e he
    simp only [bbox_generator_3D, Bool.false_eq_true, if_false] at he
    obtain ⟨⟨j, s⟩, hp, rfl⟩ := List.mem_map.mp he
    exact ⟨rfl, henum j s hp⟩
  · intro p hp
    unfold rtreeIntersection2 at hp
    obtain ⟨e, he, rfl⟩ := List.mem_map.mp hp
    obtain ⟨hein, _⟩ := List.mem_filter.mp he
    unfold write_shape_rtree_2D at hein
    obtain ⟨e0, he0, rfl⟩ := List.mem_map.mp hein
    simp only [bbox_generator_2D, Bool.false_eq_true, if_false] at he0
    obtain ⟨⟨j, s⟩, hjs, rfl⟩ := List.mem_map.mp he0
    have hj := henum j s hjs
    refine ⟨j, hj, rfl, ?_⟩
    show shapes.get? j = some shapes[j]
    rw [List.get?_eq_getElem?, List.getElem?_eq_getElem hj]

/-- Witness for C10: the scan of a one-shape index returns the valid 0-based
payload `idx 0`. -/
theorem payload_is_sequential_index_witness :
    ∃ i, ∃ hlt : i < [sampleShape].length, Payload.idx 0 = Payload.idx i ∧
      pysalShapeGet [sampleShape] (Payload.idx 0) = some [sampleShape][i] :=
  (payload_is_sequential_index [sampleShape] [] 1 0 sampleBox).2.2
    (Payload.idx 0) (by decide)

theorem headerIndex_eq_none (header : List String) (kwd : String)
    (h : kwd ∉ header) : headerIndex header kwd = none := by
  induction header with
  | nil => rfl
  | cons f fs ih =>
    have hne : ¬f = kwd := fun he => h (he ▸ List.mem_cons_self f fs)
    simp only [headerIndex, if_neg hne]
    rw [ih (fun hm => h (List.mem_cons_of_mem f hm))]
    rfl

/-- C8: time-aware builder fail-fast. If the designated time field name is
absent from the dbf header, `write_shape_rtree_3D` raises at the
`dbf.header.index(time_kwd)` lookup, which runs before `index.Index` is
created: no entry is generated and no partial or empty index is persisted
(result `none`). -/
theorem missing_time_field_fails_fast (shapes : List Shape)
    (header : List String) (dbf : List Record) (dt : ℚ) (time_kwd : String)
    (so : Bool) (h : time_kwd ∉ header) :
    write_shape_rtree_3D shapes header dbf dt time_kwd so = none := by
  unfold write_shape_rtree_3D
  rw [headerIndex_eq_none header time_kwd h]

/-- Witness for C8 at a concrete header lacking the `time` field. -/
theorem missing_time_field_fails_fast_witness :
    ("time" ∉ ["id", "width"]) ∧
    write_shape_rtree_3D [sampleShape] ["id", "width"] [[0]] 1 "time" false =
      none :=
  ⟨by decide,
   missing_time_field_fails_fast [sampleShape] ["id", "width"] [[0]] 1 "time"
     false (by decide)⟩

/-- C3 (failing-input evaluation): rtree persists `shape_file_root.idx` and
`shape_file_root.dat`, but the constructor's existence check concatenates
`idx`/`dat` with no dot, so with both artifacts `river.idx` and `river.dat`
present the check still fails and the index is re-derived from the shapefile —
contradicting the constructor's own docstring ("If the files required by rtree
(.idx and .dat) do not exist ... they are created on initialization") and the
spec's load-without-re-derivation requirement. -/
theorem init_rebuilds_despite_artifacts :
    rtree_written_files "river" = ["river.idx", "river.dat"] ∧
    rtree_files_check ["river.idx", "river.dat", "river.shp"] "river" = false ∧
    (GeometryDataBase2D.init ["river.idx", "river.dat", "river.shp"]
      [(sampleBox, Payload.idx 0)] [sampleShape] "river" false).rebuilt =
      true := by
  refine ⟨rfl, by decide, by decide⟩

/-- C9 counterexample: the persisted artifacts for root `r` hold an index
built with `store_obj=True` (payloads are the full geometries), yet
constructing a `GeometryDataBase2D` over them with `store_obj=False` succeeds
with no error and its queries return results — the payload-mode mismatch is
never detected (here the constructor silently rebuilds with the new mode,
since the dot-less existence check cannot see `r.idx`/`r.dat`). -/
theorem payload_mode_mismatch_silently_succeeds :
    (GeometryDataBase2D.mk [sampleShape]
      (GeometryDataBase2D.init (rtree_written_files "r")
        (write_shape_rtree_2D [sampleShape] true) [sampleShape] "r"
        false).idx).intersects_xy_bbox sampleBox = [Payload.idx 0] := by
  decide

/-- C9 (amended): the payload mode is not recorded as part of the persisted
index's identity. `store_obj` is consulted only on the rebuild path: whenever
the existence check passes, the persisted entries are loaded unchanged — with
whatever payload mode they were built — regardless of the `store_obj`
argument, so a construction over an index persisted with the other payload
mode silently succeeds. -/
theorem store_obj_not_recorded (fs : List String)
    (persisted : List (Box2 × Payload)) (shapes : List Shape) (root : String)
    (store_obj : Bool) (hload : rtree_files_check fs root = true) :
    (GeometryDataBase2D.init fs persisted shapes root store_obj).idx =
      persisted ∧
    (GeometryDataBase2D.init fs persisted shapes root store_obj).rebuilt =
      false := by
  unfold GeometryDataBase2D.init
  rw [hload]
  exact ⟨rfl, rfl⟩

/-- Witness for the amended C9: an index persisted with geometry payloads
(`store_obj=True`) is silently loaded as-is by a constructor called with
`store_obj=False`. -/
theorem store_obj_not_recorded_witness :
    (GeometryDataBase2D.init ["ridx", "rdat"]
      [(sampleBox, Payload.geom sampleShape)] [sampleShape] "r" false).idx =
      [(sampleBox, Payload.geom sampleShape)] ∧
    (GeometryDataBase2D.init ["ridx", "rdat"]
      [(sampleBox, Payload.geom sampleShape)] [sampleShape] "r"
      false).rebuilt = false :=
  store_obj_not_recorded ["ridx", "rdat"]
    [(sampleBox, Payload.geom sampleShape)] [sampleShape] "r" false
    (by decide)

/-! ### Time-widening equivalence -/

/-- The time value the 3D generator stores for record `i`
(`dbf[i][0][tindex]` with pysal slicing semantics). -/
def storedTime (dbf : List Record) (tindex i : Nat) : ℚ :=
  ((dbfGetItem dbf i).headD []).getD tindex 0

theorem mem_enum_fst_lt {α : Type _} (l : List α) (j : Nat) (s : α)
    (hj : (j, s) ∈ l.enum) : j < l.length := by
  rw [List.mk_mem_enum_iff_getElem?] at hj
  by_contra hlt
  rw [List.getElem?_eq_none (by omega)] at hj
  cases hj

/-- With record `i`'s stored time strictly inside `(-LT, LT)` and a
nonnegative half-window (rtree refuses inverted boxes at build time), the
3D overlap test against the widened query box coincides with the 2D overlap
test against the planar query box. -/
theorem overlap3_widen_eq (s : Shape) (dbf : List Record) (dt : ℚ)
    (tindex i : Nat) (LT : ℚ) (xy : Box2) (hdt : 0 ≤ dt)
    (h1 : -LT < storedTime dbf tindex i) (h2 : storedTime dbf tindex i < LT) :
    boxOverlap3 (shape_bbox_dbf_as_tuple s (dbfGetItem dbf i) dt tindex)
      (widen_to_alltime xy LT) = boxOverlap2 (shape_bbox_as_tuple s) xy := by
  simp only [storedTime] at h1 h2
  have ha : ((dbfGetItem dbf i).headD []).getD tindex 0 - dt / 2 ≤ LT := by
    linarith
  have hb : -LT ≤ ((dbfGetItem dbf i).headD []).getD tindex 0 + dt / 2 := by
    linarith
  simp only [boxOverlap3, boxOverlap2, shape_bbox_dbf_as_tuple_eq,
    shape_bbox_as_tuple, widen_to_alltime, decide_eq_true ha,
    decide_eq_true hb, Bool.and_true]

/-- One-pass equality of the two index scans (generic in the payload
function): over any enumerated record list whose stored times lie strictly
inside `(-LT, LT)`, the 3D scan of the widened box returns exactly the
payloads the 2D scan of the planar box returns. -/
theorem widen_scan_eq (dbf : List Record) (dt : ℚ) (tindex : Nat) (LT : ℚ)
    (xy : Box2) (hdt : 0 ≤ dt) :
    ∀ (l : List (Nat × Shape)) (plf : Nat × Shape → Payload),
      (∀ p ∈ l, -LT < storedTime dbf tindex p.1 ∧
        storedTime dbf tindex p.1 < LT) →
      ((l.map (fun p =>
          (shape_bbox_dbf_as_tuple p.2 (dbfGetItem dbf p.1) dt tindex,
           plf p))).filter
        (fun e => boxOverlap3 e.1 (widen_to_alltime xy LT))).map Prod.snd =
      ((l.map (fun p => (shape_bbox_as_tuple p.2, plf p))).filter
        (fun e => boxOverlap2 e.1 xy)).map Prod.snd := by
  intro l
  induction l with
  | nil => intro plf hl; rfl
  | cons hd tl ih =>
    intro plf hl
    obtain ⟨i, s⟩ := hd
    have hhd := hl (i, s) (List.mem_cons_self _ _)
    have hcond := overlap3_widen_eq s dbf dt tindex i LT xy hdt hhd.1 hhd.2
    have htl := ih plf (fun p hp => hl p (List.mem_cons_of_mem _ hp))
    simp only [List.map_cons, List.filter_cons]
    rw [hcond]
    cases hov : boxOverlap2 (shape_bbox_as_tuple s) xy with
    | false => simpa [hov] using htl
    | true => simp only [hov, if_true, List.map_cons]; rw [htl]

/-- C4: time-widening equivalence. On a 3D index built by the 3D generator
(half-window `dt ≥ 0`; rtree rejects inverted boxes, so every buildable index
satisfies this) whose every stored time attribute lies strictly within
`(-large_time, large_time)`, `ReachDataBase3D.intersects_xy_bbox(xy_box,
large_time)` returns exactly what `GeometryDataBase2D.intersects_xy_bbox(
xy_box)` returns on the 2D index built over the same geometries with the same
payload mode (the source's default `large_time` is `1e16`). -/
theorem time_widening_equivalence (shapes : List Shape) (dbf : List Record)
    (dt : ℚ) (tindex : Nat) (LT : ℚ) (xy : Box2) (so : Bool) (hdt : 0 ≤ dt)
    (ht : ∀ i, i < shapes.length →
      -LT < storedTime dbf tindex i ∧ storedTime dbf tindex i < LT) :
    (ReachDataBase3D.mk shapes dbf tindex
        ((bbox_generator_3D shapes dbf dt tindex so).map
          (fun e => (e.2.1, e.2.2)))).intersects_xy_bbox xy LT =
    (GeometryDataBase2D.mk shapes
        ((bbox_generator_2D shapes so).map
          (fun e => (e.2.1, e.2.2)))).intersects_xy_bbox xy := by
  have hmem : ∀ p ∈ shapes.enum, -LT < storedTime dbf tindex p.1 ∧
      storedTime dbf tindex p.1 < LT := by
    intro p hp
    obtain ⟨j, s⟩ := p
    exact ht j (mem_enum_fst_lt shapes j s hp)
  unfold ReachDataBase3D.intersects_xy_bbox GeometryDataBase2D.intersects_xy_bbox
  show (rtreeIntersection3 _ _).filter (refineSpatial shapes xy) =
    (rtreeIntersection2 _ _).filter (refineSpatial shapes xy)
  congr 1
  unfold rtreeIntersection3 rtreeIntersection2
  cases so with
  | false =>
    simp only [bbox_generator_3D, bbox_generator_2D, Bool.false_eq_true,
      if_false, List.map_map]
    exact widen_scan_eq dbf dt tindex LT xy hdt shapes.enum
      (fun p => Payload.idx p.1) hmem
  | true =>
    simp only [bbox_generator_3D, bbox_generator_2D, if_true, List.map_map]
    exact widen_scan_eq dbf dt tindex LT xy hdt shapes.enum
      (fun p => Payload.geom p.2) hmem

/-- Witness for C4 at a concrete one-record database: time attribute `7`,
half-window `dt = 2`, `large_time = 100`. -/
theorem time_widening_equivalence_witness :
    (ReachDataBase3D.mk [sampleShape] [[5, 7]] 1
        ((bbox_generator_3D [sampleShape] [[5, 7]] 2 1 false).map
          (fun e => (e.2.1, e.2.2)))).intersects_xy_bbox sampleBox 100 =
    (GeometryDataBase2D.mk [sampleShape]
        ((bbox_generator_2D [sampleShape] false).map
          (fun e => (e.2.1, e.2.2)))).intersects_xy_bbox sampleBox :=
  time_widening_equivalence [sampleShape] [[5, 7]] 2 1 100 sampleBox false
    (by norm_num) (by decide)

end GeometryDataBase
